import Mathlib

/-!
Verification development for the telegram media downloader
(source: telegramDownloader_topic.py).

Python strings are modelled as lists of characters (`Str`), machine
integers as `Nat`/`Int`, and fallible collaborator calls as `Except`.
The external collaborators (Telethon client, filesystem, progress bar)
appear only through their interface contracts, as environment fields.
-/

/-- Python `str` modelled as its list of characters. -/
abbrev Str := List Char

/- ------------------------------------------------------------------
   Decimal formatting machinery, modelling the Python format `%04d`
   used at line 87 of the source (the rank naming prefix).
   ------------------------------------------------------------------ -/

/-- Little-endian decimal digits of `n`, with explicit fuel so that the
definition is structurally recursive (the fuel `n` itself always
suffices). `decDigitsLE 0 = []`, matching the fact that the padded
rendering of 0 is `0000`. -/
def decDigitsLEAux : Nat → Nat → List Nat
  | _, 0 => []
  | 0, _ + 1 => []
  | f + 1, n + 1 => ((n + 1) % 10) :: decDigitsLEAux f ((n + 1) / 10)

/-- Little-endian decimal digits of `n`. -/
def decDigitsLE (n : Nat) : List Nat := decDigitsLEAux n n

/-- Value of a little-endian digit list. -/
def ofDigitsLE : List Nat → Nat
  | [] => 0
  | d :: ds => d + 10 * ofDigitsLE ds

/-- Big-endian decimal character rendering of `n` (empty for 0). -/
def beDigitChars (n : Nat) : Str := ((decDigitsLE n).reverse).map Nat.digitChar

/-- Python `str(n)` for a natural number. -/
def natRepr (n : Nat) : Str := if n = 0 then ['0'] else beDigitChars n

/-- The Python format `%04d` applied to a natural number: decimal,
zero-padded on the left to width at least 4 (wider numbers are not
truncated). -/
def pad4Chars (n : Nat) : Str :=
  List.replicate (4 - (beDigitChars n).length) '0' ++ beDigitChars n

/-- One step of re-reading a decimal character string as a number. -/
def evalStep (acc : Nat) (c : Char) : Nat := 10 * acc + (c.toNat - 48)

/-- Re-read a big-endian decimal character string as a number. -/
def evalBE (s : Str) : Nat := s.foldl evalStep 0

/- ------------------------------------------------------------------
   Data model: messages and their media payloads, following the
   tagged-variant reading of Telethon message objects that the source
   probes dynamically (getattr on media.document / media.photo, the
   document attribute list, photo size list).
   ------------------------------------------------------------------ -/

/-- One entry of `document.attributes`: `some s` models an attribute
object carrying a `file_name` field with value `s`; `none` models an
attribute without that field. -/
abbrev DocAttr := Option Str

/-- A document payload: its optional `size` field (`none` models an
object without a size attribute) and its attribute list. -/
structure Document where
  size : Option Nat
  attrs : List DocAttr
deriving DecidableEq

/-- A photo payload: its list of per-resolution size objects, each
optionally carrying a `size` field (getattr default 0 in the source). -/
structure Photo where
  sizes : List (Option Nat)
deriving DecidableEq

/-- The media payload of a message, as a tagged variant. -/
inductive Media
  | document (d : Document)
  | photo (p : Photo)
  | other
deriving DecidableEq

/-- A fetched message: its id and optional media payload. -/
structure Message where
  id : Nat
  media : Option Media
deriving DecidableEq

/-- Telethon accessor `message.document`: the document when the media
is a document payload, else none. -/
def Message.document (m : Message) : Option Document :=
  match m.media with
  | some (Media.document d) => some d
  | _ => none

/- ------------------------------------------------------------------
   get_media_size (source lines 53-64).
   ------------------------------------------------------------------ -/

/-- Embedding of `get_media_size`: for a document with a size field,
that size; else for a photo with a non-empty size list, the maximum of
the per-resolution sizes (getattr default 0); else 0. Python `max`
over a non-empty list of naturals equals the fold of `Nat.max` from 0. -/
def get_media_size (message : Message) : Nat :=
  match message.media with
  | none => 0
  | some (Media.document d) =>
    match d.size with
    | some sz => sz
    | none => 0
  | some (Media.photo p) =>
    if p.sizes.isEmpty then 0
    else (p.sizes.map (fun s => s.getD 0)).foldl Nat.max 0
  | some Media.other => 0

/-- Modelled from the spec: sizeHint is the optional byte count known
ahead of transfer, absent treated as 0; for a photo only
per-resolution sizes are known and the largest is taken. -/
def sizeHintSpec (m : Message) : Nat :=
  match m.media with
  | some (Media.document d) => d.size.getD 0
  | some (Media.photo p) => (p.sizes.map (fun s => s.getD 0)).foldl Nat.max 0
  | some Media.other => 0
  | none => 0

/- ------------------------------------------------------------------
   File naming (source lines 74-92).
   ------------------------------------------------------------------ -/

/-- The attribute loop of lines 76-80: the file_name field of the
first attribute that has one, stopping at the first hit. -/
def firstFileNameAttr : List DocAttr → Option Str
  | [] => none
  | some s :: _ => some s
  | none :: rest => firstFileNameAttr rest

/-- Lines 75-80: the name picked from the document attributes; the
guard mirrors the Python truthiness test on `message.document` (not
None) and on the attribute list (non-empty). -/
def pickedFileName (m : Message) : Option Str :=
  match m.document with
  | some d => if d.attrs.isEmpty then none else firstFileNameAttr d.attrs
  | none => none

/-- Line 84: the generic fallback name `media_<messageID>`. -/
def mediaFallbackName (m : Message) : Str := "media_".data ++ natRepr m.id

/-- Lines 75-84: the base name. The Python test `if not file_name`
treats both None and the empty string as absent, so an empty picked
name also falls back to `media_<id>`. -/
def resolvedBase (m : Message) : Str :=
  match pickedFileName m with
  | some s => if s.isEmpty then mediaFallbackName m else s
  | none => mediaFallbackName m

/-- Lines 86-88: the full destination file name, with the `%04d_` rank
naming part prepended. -/
def fileNameFor (m : Message) (index : Nat) : Str :=
  pad4Chars index ++ '_' :: resolvedBase m

/-- `os.path.join(output_dir, file_name)` for a plain relative file
name under a plain directory name. -/
def pathJoin (dir file : Str) : Str := dir ++ '/' :: file

/- ------------------------------------------------------------------
   download_media_message (source lines 66-122), as a pure function of
   the message, destination, rank index, and the transport
   collaborator (client.download_media), which either returns the
   transferred byte count or fails with a transport error. The
   admission gate around the body (async with sem) is modelled
   separately by the scheduler trace model below; the progress bar is
   purely observational and not modelled.
   ------------------------------------------------------------------ -/

/-- Terminal status of one transfer. -/
inductive Status
  | Succeeded (bytes : Nat)
  | Failed (reason : Str)
deriving DecidableEq

/-- Outcome record of one task: whether the destination directory was
created (line 91), the destination file path handed to the transport
(none when the task returned before choosing one), the terminal
status, and the diagnostic printed on failure (line 120). -/
structure TaskResult where
  madeDir : Bool
  path : Option Str
  status : Status
  diagnostic : Option Str
deriving DecidableEq

/-- The diagnostic of line 120, naming the failing message. -/
def diagMsg (id : Nat) (e : Str) : Str :=
  "Error: Failed to download message ".data ++ natRepr id ++ " - ".data ++ e

/-- A transport collaborator: given the message and the destination
path, the number of bytes transferred, or a transport error. -/
abbrev Transport := Message → Str → Except Str Nat

/-- Embedding of the body of `download_media_message`: early no-op
return when the message has no media (lines 70-72), otherwise name
resolution, directory creation, and the guarded download whose
exception handler records the failure diagnostic instead of raising
(lines 112-122). -/
def download_media_message (transport : Transport) (message : Message)
    (output_dir : Str) (index : Nat) : TaskResult :=
  if message.media.isNone then
    { madeDir := false, path := none, status := Status.Succeeded 0, diagnostic := none }
  else
    let file_name := fileNameFor message index
    let file_path := pathJoin output_dir file_name
    match transport message file_path with
    | Except.ok n =>
      { madeDir := true, path := some file_path, status := Status.Succeeded n,
        diagnostic := none }
    | Except.error e =>
      { madeDir := true, path := some file_path, status := Status.Failed e,
        diagnostic := some (diagMsg message.id e) }

/- ------------------------------------------------------------------
   The windower (source lines 187-190): Python slice
   messages[start : end] with end = start + limit when a limit is
   given, else the total length. The spec constrains skip to be
   non-negative and limit positive, so both are naturals here.
   ------------------------------------------------------------------ -/

/-- Embedding of lines 187-190. `messages[a : b]` for non-negative
bounds is take-then-drop. -/
def applyWindow (messages : List α) (skip : Nat) (limit : Option Nat) : List α :=
  let total := messages.length
  let start := skip
  let endIdx := match limit with
    | some l => start + l
    | none => total
  (messages.take endIdx).drop start

/- ------------------------------------------------------------------
   The batch (source lines 214-218): one task per windowed message,
   enumerated from start+1, gathered into the list of outcomes.
   ------------------------------------------------------------------ -/

/-- The task list of lines 214-217, carrying the running enumerate
index. -/
def runBatchAux (transport : Transport) (dir : Str) : Nat → List Message → List TaskResult
  | _, [] => []
  | idx, m :: rest =>
    download_media_message transport m dir idx :: runBatchAux transport dir (idx + 1) rest

/-- The gathered outcomes of the batch launched at lines 214-218:
`enumerate(messages, start=start+1)` indexes the tasks from
`start + 1`. -/
def runBatch (transport : Transport) (msgs : List Message) (dir : Str) (start : Nat) :
    List TaskResult :=
  runBatchAux transport dir (start + 1) msgs

/-- Count of Succeeded outcomes in a batch report. -/
def succeededCount (rs : List TaskResult) : Nat :=
  rs.countP (fun r => match r.status with | Status.Succeeded _ => true | _ => false)

/-- Count of Failed outcomes in a batch report. -/
def failedCount (rs : List TaskResult) : Nat :=
  rs.countP (fun r => match r.status with | Status.Failed _ => true | _ => false)

/- ------------------------------------------------------------------
   The admission gate (asyncio.Semaphore, source line 212) and the
   gather join (line 218), as a small-step trace model. Each launched
   task acquires one slot before its body runs (the async-with of line
   69), releases it unconditionally on exit, and the batch is marked
   returned only when every launched task is done. asyncio.Semaphore
   raises ValueError when constructed with a negative capacity.
   ------------------------------------------------------------------ -/

/-- `asyncio.Semaphore(value)`: rejects a negative capacity, accepts
any other (including 0). -/
def semaphoreInit (value : Int) : Except Str Nat :=
  if value < 0 then Except.error "Semaphore initial value must be >= 0".data
  else Except.ok value.toNat

/-- Lifecycle phase of one launched task: waiting at the gate, holding
a slot while its body runs, or terminal (the body returns normally on
both success and caught failure, so one terminal phase covers both). -/
inductive TaskPhase
  | waiting
  | running
  | done
deriving DecidableEq

/-- Instrumented scheduler state: free slots of the gate, the phase of
each launched task, and whether the gather of line 218 has returned. -/
structure GState where
  sem : Nat
  phases : List TaskPhase
  returned : Bool
deriving DecidableEq

/-- Number of tasks currently holding an admission slot. -/
def countRunning (l : List TaskPhase) : Nat :=
  l.countP (fun p => p == TaskPhase.running)

/-- Initial state: gate at full capacity `n`, all `len` launched tasks
waiting, gather not yet returned. -/
def initState (n len : Nat) : GState :=
  { sem := n, phases := List.replicate len TaskPhase.waiting, returned := false }

/-- One scheduler event: a waiting task acquires a slot (only when one
is free), a running task finishes and releases its slot (the
async-with releases unconditionally on any exit), or the gather
returns once every task is done. -/
inductive SemStep : GState → GState → Prop
  | acquire (s : GState) (i : Nat)
      (hp : s.phases.get? i = some TaskPhase.waiting) (hs : 0 < s.sem) :
      SemStep s { sem := s.sem - 1, phases := s.phases.set i TaskPhase.running,
                  returned := s.returned }
  | release (s : GState) (i : Nat)
      (hp : s.phases.get? i = some TaskPhase.running) :
      SemStep s { sem := s.sem + 1, phases := s.phases.set i TaskPhase.done,
                  returned := s.returned }
  | join (s : GState)
      (hall : ∀ p ∈ s.phases, p = TaskPhase.done) (hr : s.returned = false) :
      SemStep s { sem := s.sem, phases := s.phases, returned := true }

/-- States reachable during a batch with gate capacity `n` and `len`
launched tasks. -/
def SchedReachable (n len : Nat) (s : GState) : Prop :=
  Relation.ReflTransGen SemStep (initState n len) s

/- ------------------------------------------------------------------
   main (source lines 124-221) as a pure function of the collaborator
   environment and the parsed arguments. sys.exit(1) and an uncaught
   exception both yield process exit code 1; a plain return from main
   yields exit code 0. The batch path assumes the gather returns,
   which holds for gate capacity at least 1 and terminating transfers
   (capacity 0 deadlocks; see the scheduler trace model).
   ------------------------------------------------------------------ -/

/-- Parsed CLI arguments (argparse, source lines 41-51). The spec
constrains skip to be non-negative and limit positive, so both are
naturals; concurrency is passed through unvalidated as an integer. -/
structure Args where
  id : Str
  isGroup : Bool
  topic : Option Int
  concurrency : Int
  skip : Nat
  limit : Option Nat

/-- The collaborator environment of one run: the configured
credentials, and the results the Telethon client would produce for
connect, entity resolution, the history walk, and each download. -/
structure Env where
  api_id : Int
  api_hash : Str
  startResult : Except Str Unit
  entityResult : Except Str Unit
  historyResult : Except Str (List Message)
  transport : Transport

/-- Observable result of one run: the process exit code, the gathered
per-task outcomes (empty when the batch was never reached), and the
pre-flight total byte estimate of line 198 (none when never printed). -/
structure RunResult where
  exitCode : Nat
  outcomes : List TaskResult
  totalBytes : Option Nat
deriving DecidableEq

/-- Embedding of `main` (lines 124-221): the credential presence check
(exit 1), the connect / entity / fetch precondition failures (each
prints and returns normally, exit 0), the media filter of the history
walk, the empty checks, the windower, the pre-flight size sum, the
semaphore construction (an uncaught ValueError for a negative
capacity, exit 1), and the gathered batch (exit 0). -/
def mainModel (env : Env) (args : Args) : RunResult :=
  if env.api_id = 0 ∨ env.api_hash = [] then
    { exitCode := 1, outcomes := [], totalBytes := none }
  else
    match env.startResult with
    | Except.error _ => { exitCode := 0, outcomes := [], totalBytes := none }
    | Except.ok _ =>
      match env.entityResult with
      | Except.error _ => { exitCode := 0, outcomes := [], totalBytes := none }
      | Except.ok _ =>
        match env.historyResult with
        | Except.error _ => { exitCode := 0, outcomes := [], totalBytes := none }
        | Except.ok history =>
          let messages := history.filter (fun m => m.media.isSome)
          if messages.isEmpty then
            { exitCode := 0, outcomes := [], totalBytes := none }
          else
            let start := args.skip
            let windowed := applyWindow messages args.skip args.limit
            if windowed.isEmpty then
              { exitCode := 0, outcomes := [], totalBytes := none }
            else
              let total_bytes := (windowed.map get_media_size).sum
              let output_dir := "downloads_".data ++ args.id
              match semaphoreInit args.concurrency with
              | Except.error _ =>
                { exitCode := 1, outcomes := [], totalBytes := some total_bytes }
              | Except.ok _ =>
                { exitCode := 0,
                  outcomes := runBatch env.transport windowed output_dir start,
                  totalBytes := some total_bytes }

/- ------------------------------------------------------------------
   Concrete instances used by witnesses and counterexamples.
   ------------------------------------------------------------------ -/

/-- A transport that always succeeds with a fixed byte count. -/
def okTransport (n : Nat) : Transport := fun _ _ => Except.ok n

/-- A document message with a single attribute carrying one file_name
value. -/
def namedDocMsg (i : Nat) (name : Str) (sz : Option Nat) : Message :=
  { id := i, media := some (Media.document { size := sz, attrs := [some name] }) }

/-- A photo message with the given per-resolution size list. -/
def photoMsg (i : Nat) (szs : List (Option Nat)) : Message :=
  { id := i, media := some (Media.photo { sizes := szs }) }

/-- A document message with no size field and no attributes. -/
def bareDocMsg (i : Nat) : Message :=
  { id := i, media := some (Media.document { size := none, attrs := [] }) }

/-- A transport that fails on the message with id 2 and succeeds with
5 bytes otherwise. -/
def failSecondTransport : Transport := fun m _ =>
  if m.id = 2 then Except.error ("boom".data) else Except.ok 5

/-- Default-style parsed arguments: concurrency 4, no skip, no limit. -/
def argsDefault : Args :=
  { id := "mychat".data, isGroup := false, topic := none, concurrency := 4,
    skip := 0, limit := none }

/-- Arguments with skip 1 and concurrency 2. -/
def argsSkip1 : Args :=
  { id := "c".data, isGroup := false, topic := none, concurrency := 2,
    skip := 1, limit := none }

/-- Arguments with a negative concurrency. -/
def argsNegConc : Args :=
  { id := "c".data, isGroup := false, topic := none, concurrency := -3,
    skip := 0, limit := none }

/-- An environment whose entity resolution fails (unresolvable chat or
channel identifier); credentials are present and connect succeeds. -/
def envBadEntity : Env :=
  { api_id := 12345678, api_hash := "hash".data,
    startResult := Except.ok (), entityResult := Except.error ("not found".data),
    historyResult := Except.ok [], transport := okTransport 0 }

/-- An environment that reaches the batch: three media messages (a
sized document, a photo with three resolutions one of which has no
size field, and a sizeless document). -/
def envThreeMedia : Env :=
  { api_id := 12345678, api_hash := "hash".data,
    startResult := Except.ok (), entityResult := Except.ok (),
    historyResult := Except.ok [namedDocMsg 1 ("a".data) (some 100),
      photoMsg 2 [some 10, some 30, none], bareDocMsg 3],
    transport := okTransport 1 }

/- ------------------------------------------------------------------
   Helper lemmas: decimal formatting round-trip and injectivity of the
   rank naming part.
   ------------------------------------------------------------------ -/

theorem ofDigitsLE_decAux : ∀ (f n : Nat), n ≤ f →
    ofDigitsLE (decDigitsLEAux f n) = n := by
  intro f
  induction f with
  | zero =>
    intro n h
    have hn : n = 0 := by omega
    subst hn; rfl
  | succ f ih =>
    intro n h
    match n with
    | 0 => rfl
    | n + 1 =>
      have hdiv : (n + 1) / 10 ≤ f := by
        have := Nat.div_lt_self (Nat.succ_pos n) (by omega : 1 < 10)
        omega
      show ofDigitsLE (((n + 1) % 10) :: decDigitsLEAux f ((n + 1) / 10)) = n + 1
      rw [ofDigitsLE, ih _ hdiv]
      exact Nat.mod_add_div (n + 1) 10

theorem decAux_lt_ten : ∀ (f n d : Nat), d ∈ decDigitsLEAux f n → d < 10 := by
  intro f
  induction f with
  | zero =>
    intro n d hd
    cases n <;> simp [decDigitsLEAux] at hd
  | succ f ih =>
    intro n d hd
    cases n with
    | zero => simp [decDigitsLEAux] at hd
    | succ n =>
      simp only [decDigitsLEAux, List.mem_cons] at hd
      rcases hd with h | h
      · subst h; exact Nat.mod_lt _ (by omega)
      · exact ih _ _ h

theorem digitChar_toNat_sub : ∀ d < 10, (Nat.digitChar d).toNat - 48 = d := by decide

theorem foldl_evalStep_digits : ∀ (ds : List Nat), (∀ d ∈ ds, d < 10) → ∀ (acc : Nat),
    List.foldl evalStep acc ((ds.reverse).map Nat.digitChar) =
      acc * 10 ^ ds.length + ofDigitsLE ds := by
  intro ds
  induction ds with
  | nil => intro _ acc; simp [ofDigitsLE]
  | cons d ds ih =>
    intro hds acc
    have hd : d < 10 := hds d (List.mem_cons_self d ds)
    have hrec := ih (fun x hx => hds x (List.mem_cons_of_mem d hx)) acc
    simp only [List.reverse_cons, List.map_append, List.foldl_append, List.map_cons,
      List.map_nil, List.foldl_cons, List.foldl_nil]
    rw [hrec]
    show evalStep (acc * 10 ^ ds.length + ofDigitsLE ds) (Nat.digitChar d) =
      acc * 10 ^ (d :: ds).length + ofDigitsLE (d :: ds)
    rw [evalStep, digitChar_toNat_sub d hd]
    show 10 * (acc * 10 ^ ds.length + ofDigitsLE ds) + d =
      acc * 10 ^ (ds.length + 1) + ofDigitsLE (d :: ds)
    rw [ofDigitsLE, pow_succ]
    ring

theorem foldl_evalStep_zeros : ∀ k, List.foldl evalStep 0 (List.replicate k '0') = 0 := by
  intro k
  induction k with
  | zero => rfl
  | succ k ih =>
    rw [List.replicate_succ, List.foldl_cons]
    have : evalStep 0 '0' = 0 := rfl
    rw [this, ih]

theorem evalBE_pad4 (n : Nat) : evalBE (pad4Chars n) = n := by
  unfold evalBE pad4Chars
  rw [List.foldl_append, foldl_evalStep_zeros]
  unfold beDigitChars decDigitsLE
  rw [foldl_evalStep_digits (decDigitsLEAux n n) (fun d hd => decAux_lt_ten n n d hd) 0]
  rw [ofDigitsLE_decAux n n (Nat.le_refl n)]
  ring

theorem pad4Chars_inj {a b : Nat} (h : pad4Chars a = pad4Chars b) : a = b := by
  have he := congrArg evalBE h
  rwa [evalBE_pad4, evalBE_pad4] at he

theorem pad4Chars_no_underscore (n : Nat) : '_' ∉ pad4Chars n := by
  intro hmem
  unfold pad4Chars at hmem
  rcases List.mem_append.mp hmem with h | h
  · exact absurd (List.eq_of_mem_replicate h) (by decide)
  · unfold beDigitChars at h
    rcases List.mem_map.mp h with ⟨d, hd, hc⟩
    have hd10 : d < 10 := decAux_lt_ten n n d (List.mem_reverse.mp hd)
    have hne : ∀ x < 10, Nat.digitChar x ≠ '_' := by decide
    exact hne d hd10 hc

theorem underscore_split : ∀ (a b x y : Str), '_' ∉ a → '_' ∉ b →
    a ++ '_' :: x = b ++ '_' :: y → a = b ∧ x = y := by
  intro a
  induction a with
  | nil =>
    intro b x y _ hb h
    cases b with
    | nil =>
      simp only [List.nil_append, List.cons.injEq] at h
      exact ⟨rfl, h.2⟩
    | cons c b =>
      simp only [List.nil_append, List.cons_append, List.cons.injEq] at h
      exact absurd (h.1 ▸ List.mem_cons_self c b) hb
  | cons c a ih =>
    intro b x y ha hb h
    cases b with
    | nil =>
      simp only [List.cons_append, List.nil_append, List.cons.injEq] at h
      exact absurd (h.1 ▸ List.mem_cons_self c a) ha
    | cons d b =>
      simp only [List.cons_append, List.cons.injEq] at h
      obtain ⟨hcd, hrest⟩ := h
      have hres := ih b x y (fun hm => ha (List.mem_cons_of_mem c hm))
        (fun hm => hb (List.mem_cons_of_mem d hm)) hrest
      exact ⟨by rw [hcd, hres.1], hres.2⟩

theorem fileNameFor_index_inj {m₁ m₂ : Message} {i j : Nat}
    (h : fileNameFor m₁ i = fileNameFor m₂ j) : i = j := by
  unfold fileNameFor at h
  exact pad4Chars_inj (underscore_split _ _ _ _ (pad4Chars_no_underscore i)
    (pad4Chars_no_underscore j) h).1

/- ------------------------------------------------------------------
   Helper lemmas: shape of the gathered batch.
   ------------------------------------------------------------------ -/

theorem runBatchAux_length (t : Transport) (dir : Str) :
    ∀ (idx : Nat) (msgs : List Message),
      (runBatchAux t dir idx msgs).length = msgs.length := by
  intro idx msgs
  induction msgs generalizing idx with
  | nil => rfl
  | cons m rest ih => simp [runBatchAux, ih]

theorem runBatch_length (t : Transport) (msgs : List Message) (dir : Str) (start : Nat) :
    (runBatch t msgs dir start).length = msgs.length :=
  runBatchAux_length t dir (start + 1) msgs

theorem runBatchAux_get? (t : Transport) (dir : Str) :
    ∀ (idx j : Nat) (msgs : List Message),
      (runBatchAux t dir idx msgs).get? j =
        (msgs.get? j).map (fun m => download_media_message t m dir (idx + j)) := by
  intro idx j msgs
  induction msgs generalizing idx j with
  | nil => simp [runBatchAux]
  | cons m rest ih =>
    cases j with
    | zero => simp [runBatchAux]
    | succ j =>
      simp only [runBatchAux, List.get?_cons_succ]
      rw [ih (idx + 1) j]
      have harith : idx + 1 + j = idx + (j + 1) := by omega
      rw [harith]

theorem runBatch_get? (t : Transport) (msgs : List Message) (dir : Str) (start j : Nat) :
    (runBatch t msgs dir start).get? j =
      (msgs.get? j).map (fun m => download_media_message t m dir (start + 1 + j)) :=
  runBatchAux_get? t dir (start + 1) j msgs

theorem succeeded_add_failed (rs : List TaskResult) :
    succeededCount rs + failedCount rs = rs.length := by
  induction rs with
  | nil => rfl
  | cons r rs ih =>
    simp only [succeededCount, failedCount, List.countP_cons, List.length_cons] at ih ⊢
    cases hs : r.status <;> simp [hs] <;> omega

/- ------------------------------------------------------------------
   Claim C2: the windower.
   ------------------------------------------------------------------ -/

/-- Claim C2: for every ordered sequence of length L, skip, and
optional limit, the windowed sub-sequence is exactly the contiguous
slice starting at 0-based index skip, of length min(limit, L-skip)
when a limit is present and L-skip otherwise, and is empty when
skip is at least L. -/
theorem C2_windower {α : Type} (xs : List α) (skip : Nat) (limit : Option Nat) :
    (applyWindow xs skip limit).length =
      (match limit with
       | some l => min l (xs.length - skip)
       | none => xs.length - skip)
    ∧ (∀ i, i < (applyWindow xs skip limit).length →
        (applyWindow xs skip limit).get? i = xs.get? (skip + i))
    ∧ (xs.length ≤ skip → applyWindow xs skip limit = []) := by
  refine ⟨?_, ?_, ?_⟩
  · cases limit with
    | none => simp [applyWindow]
    | some l =>
      simp [applyWindow]
      omega
  · intro i hi
    cases limit with
    | none =>
      simp only [applyWindow] at hi ⊢
      rw [List.get?_drop]
      apply List.get?_take
      simp only [List.length_drop, List.length_take] at hi
      omega
    | some l =>
      simp only [applyWindow] at hi ⊢
      rw [List.get?_drop]
      apply List.get?_take
      simp only [List.length_drop, List.length_take] at hi
      omega
  · intro hle
    cases limit with
    | none =>
      apply List.drop_eq_nil_of_le
      simp only [List.length_take]
      omega
    | some l =>
      apply List.drop_eq_nil_of_le
      simp only [List.length_take]
      omega

/-- Witness for C2, at the three concrete examples the claim gives:
on a source of length 100, skip 20 with limit 40 yields the 40
elements 20 to 59, skip 95 with limit 40 yields 5 items, and skip 100
yields no items. -/
theorem C2_windower_witness :
    (applyWindow (List.range 100) 20 (some 40)).length = 40 ∧
    (applyWindow (List.range 100) 20 (some 40)).get? 0 = some 20 ∧
    (applyWindow (List.range 100) 95 (some 40)).length = 5 ∧
    applyWindow (List.range 100) 100 (some 40) = [] := by
  refine ⟨?_, ?_, ?_, ?_⟩
  · rw [(C2_windower (List.range 100) 20 (some 40)).1]
    simp
  · rw [(C2_windower (List.range 100) 20 (some 40)).2.1 0 (by decide)]
    simp [List.get?_range]
  · rw [(C2_windower (List.range 100) 95 (some 40)).1]
    simp
  · exact (C2_windower (List.range 100) 100 (some 40)).2.2 (by simp)

/- ------------------------------------------------------------------
   Claim C6: one terminal outcome per windowed item.
   ------------------------------------------------------------------ -/

/-- Claim C6: for every windowed sequence of length L (and whatever
the concurrency, which does not enter the gathered outcome list),
exactly one terminal outcome is recorded per windowed item, so the
report has length L, and its succeeded and failed counts partition L. -/
theorem C6_report_counts (t : Transport) (msgs : List Message) (dir : Str) (start : Nat) :
    (runBatch t msgs dir start).length = msgs.length ∧
    succeededCount (runBatch t msgs dir start) + failedCount (runBatch t msgs dir start) =
      msgs.length := by
  refine ⟨runBatch_length t msgs dir start, ?_⟩
  rw [succeeded_add_failed, runBatch_length]

/- ------------------------------------------------------------------
   Claim C9: a reference without an actual media payload.
   ------------------------------------------------------------------ -/

/-- Claim C9: a task whose message carries no media payload completes
as a no-op success with zero bytes transferred: no error status, no
destination file or directory, no diagnostic. -/
theorem C9_no_media_noop (t : Transport) (m : Message) (dir : Str) (idx : Nat)
    (h : m.media = none) :
    download_media_message t m dir idx =
      { madeDir := false, path := none, status := Status.Succeeded 0, diagnostic := none } := by
  unfold download_media_message
  rw [h]
  rfl

/-- Witness for C9 at a concrete payload-free message, under a
transport that would succeed with 3 bytes if it were consulted. -/
theorem C9_no_media_noop_witness :
    download_media_message (fun _ _ => Except.ok 3) { id := 5, media := none }
        ("downloads_x".data) 2 =
      { madeDir := false, path := none, status := Status.Succeeded 0, diagnostic := none } :=
  C9_no_media_noop (fun _ _ => Except.ok 3) { id := 5, media := none } ("downloads_x".data) 2 rfl

/- ------------------------------------------------------------------
   Claim C1: the admission gate bound and the batch join.
   ------------------------------------------------------------------ -/

/-- One scheduler event preserves the gate invariant: free slots plus
held slots equal the configured capacity, and the gather can only have
returned when every launched task is terminal. -/
theorem sem_step_invariant {s t : GState} (n : Nat) (hstep : SemStep s t)
    (hsum : s.sem + countRunning s.phases = n)
    (hret : s.returned = true → ∀ p ∈ s.phases, p = TaskPhase.done) :
    t.sem + countRunning t.phases = n ∧
    (t.returned = true → ∀ p ∈ t.phases, p = TaskPhase.done) := by
  cases hstep with
  | acquire i hp hs =>
    obtain ⟨hi, hget⟩ := List.get?_eq_some.mp hp
    have hx : s.phases[i] = TaskPhase.waiting := by
      rw [List.get_eq_getElem] at hget
      exact hget
    have hcount := List.countP_set (fun p => p == TaskPhase.running) s.phases i
      TaskPhase.running hi
    rw [hx] at hcount
    simp only [beq_self_eq_true, if_true] at hcount
    have hwait : (TaskPhase.waiting == TaskPhase.running) = false := by decide
    rw [hwait] at hcount
    simp only [Bool.false_eq_true, if_false] at hcount
    refine ⟨?_, ?_⟩
    · simp only [countRunning] at hsum hcount ⊢
      omega
    · intro hr
      have hmem : TaskPhase.waiting ∈ s.phases := hx ▸ List.getElem_mem hi
      exact absurd (hret hr TaskPhase.waiting hmem) (by decide)
  | release i hp =>
    obtain ⟨hi, hget⟩ := List.get?_eq_some.mp hp
    have hx : s.phases[i] = TaskPhase.running := by
      rw [List.get_eq_getElem] at hget
      exact hget
    have hcount := List.countP_set (fun p => p == TaskPhase.running) s.phases i
      TaskPhase.done hi
    rw [hx] at hcount
    simp only [beq_self_eq_true, if_true] at hcount
    have hdone : (TaskPhase.done == TaskPhase.running) = false := by decide
    rw [hdone] at hcount
    simp only [Bool.false_eq_true, if_false] at hcount
    have hmem : TaskPhase.running ∈ s.phases := hx ▸ List.getElem_mem hi
    have hpos : 0 < s.phases.countP (fun p => p == TaskPhase.running) := by
      rw [List.countP_pos]
      exact ⟨TaskPhase.running, hmem, by decide⟩
    refine ⟨?_, ?_⟩
    · simp only [countRunning] at hsum hcount ⊢
      omega
    · intro hr
      exact absurd (hret hr TaskPhase.running hmem) (by decide)
  | join hall hr =>
    exact ⟨hsum, fun _ => hall⟩

/-- Gate invariant along every reachable trace. -/
theorem sched_gate_invariant (n len : Nat) :
    ∀ s : GState, SchedReachable n len s →
      s.sem + countRunning s.phases = n ∧
      (s.returned = true → ∀ p ∈ s.phases, p = TaskPhase.done) := by
  intro s h
  induction h with
  | refl =>
    refine ⟨?_, ?_⟩
    · have hz : countRunning (List.replicate len TaskPhase.waiting) = 0 := by
        simp only [countRunning, List.countP_eq_zero]
        intro p hp
        rw [List.eq_of_mem_replicate hp]
        decide
      simp [initState, hz]
    · intro hr
      simp [initState] at hr
  | tail _ hstep ih =>
    exact sem_step_invariant n hstep ih.1 ih.2

/-- Claim C1: for a configured concurrency of at least 1 and any
number of launched tasks, in every reachable scheduler state at most
that many tasks concurrently hold an admission slot, and the gather
has returned only if every launched task has reached its terminal
state. -/
theorem C1_gate_bound (n len : Nat) (s : GState) (hn : 1 ≤ n)
    (h : SchedReachable n len s) :
    countRunning s.phases ≤ n ∧
    (s.returned = true → ∀ p ∈ s.phases, p = TaskPhase.done) := by
  obtain ⟨h1, h2⟩ := sched_gate_invariant n len s h
  exact ⟨by omega, h2⟩

/-- Witness for C1: capacity 1, one launched task, in the state just
after that task acquired the slot. -/
theorem C1_gate_bound_witness :
    countRunning (GState.mk 0 [TaskPhase.running] false).phases ≤ 1 ∧
    ((GState.mk 0 [TaskPhase.running] false).returned = true →
      ∀ p ∈ (GState.mk 0 [TaskPhase.running] false).phases, p = TaskPhase.done) := by
  apply C1_gate_bound 1 1 _ (by omega)
  exact Relation.ReflTransGen.single
    (SemStep.acquire (initState 1 1) 0 (by decide) (by decide))

/- ------------------------------------------------------------------
   Claim C3 and claim C10: destination naming.
   ------------------------------------------------------------------ -/

theorem isNone_false_of_isSome {α : Type} {o : Option α} (h : o.isSome = true) :
    o.isNone = false := by
  cases o
  · cases h
  · rfl

/-- A task over a message that does carry media hands the transport
the deterministic destination path built from the rank index and the
resolved base name. -/
theorem download_path (t : Transport) (m : Message) (dir : Str) (idx : Nat)
    (h : m.media.isNone = false) :
    (download_media_message t m dir idx).path = some (pathJoin dir (fileNameFor m idx)) := by
  cases htr : t m (pathJoin dir (fileNameFor m idx)) with
  | ok n => simp [download_media_message, h, htr]
  | error e => simp [download_media_message, h, htr]

/-- Claim C3, amended: the destination file name of the item at
windowed-local index i in a window starting at offset start is the
rank start+i+1 zero-padded to width 4, then an underscore, then the
first file_name attribute of the document when one exists and is
non-empty, and media_ followed by the message id otherwise (no
document, no file_name attribute, or an empty one). The name is a
function of the message and its fixed rank index only, so it is
independent of completion order. -/
theorem C3_naming (t : Transport) (msgs : List Message) (dir : Str) (start j : Nat)
    (m : Message) (hm : msgs.get? j = some m) (hmedia : m.media.isSome = true) :
    (runBatch t msgs dir start).get? j =
      some (download_media_message t m dir (start + 1 + j)) ∧
    (download_media_message t m dir (start + 1 + j)).path =
      some (pathJoin dir (pad4Chars (start + 1 + j) ++ '_' ::
        (match pickedFileName m with
         | some s => if s.isEmpty then mediaFallbackName m else s
         | none => mediaFallbackName m))) := by
  refine ⟨?_, ?_⟩
  · rw [runBatch_get?, hm]
    rfl
  · rw [download_path t m dir (start + 1 + j) (isNone_false_of_isSome hmedia)]
    rfl

/-- Witness for C3 at the concrete example of the claim: window offset
start = 10, local index 0, so rank 11; a document with suggested name
report.pdf is stored at prefix 0011_. -/
theorem C3_naming_witness :
    (runBatch (okTransport 9) [namedDocMsg 3 ("report.pdf".data) (some 7)]
        ("dl".data) 10).get? 0 =
      some (download_media_message (okTransport 9) (namedDocMsg 3 ("report.pdf".data) (some 7))
        ("dl".data) 11) ∧
    (download_media_message (okTransport 9) (namedDocMsg 3 ("report.pdf".data) (some 7))
        ("dl".data) 11).path =
      some ("dl/0011_report.pdf".data) := by
  have h := C3_naming (okTransport 9) [namedDocMsg 3 ("report.pdf".data) (some 7)]
    ("dl".data) 10 0 (namedDocMsg 3 ("report.pdf".data) (some 7)) rfl rfl
  refine ⟨h.1, ?_⟩
  rw [h.2]
  decide

/-- Counterexample to claim C3 as stated: a document carrying a
file_name attribute whose value is the empty string. A suggested name
exists (the attribute is present), so the claim requires the file name
0011_ followed by that empty name; the code treats the empty string as
falsy and uses the media_ fallback instead. -/
theorem C3_counterexample :
    pickedFileName (namedDocMsg 7 [] none) = some [] ∧
    fileNameFor (namedDocMsg 7 [] none) 11 = "0011_media_7".data ∧
    "0011_media_7".data ≠ "0011_".data ++ ([] : Str) := by decide

/-- Claim C10: two distinct items of the same windowed batch are
written to distinct destination paths, whatever their suggested or
fallback base names, because the zero-padded rank part of the file
name differs. -/
theorem C10_distinct_paths (t : Transport) (msgs : List Message) (dir : Str)
    (start i j : Nat) (mi mj : Message) (ri rj : TaskResult)
    (hij : i ≠ j)
    (hmi : msgs.get? i = some mi) (hmj : msgs.get? j = some mj)
    (hmedi : mi.media.isSome = true) (hmedj : mj.media.isSome = true)
    (hri : (runBatch t msgs dir start).get? i = some ri)
    (hrj : (runBatch t msgs dir start).get? j = some rj) :
    ri.path ≠ rj.path := by
  rw [runBatch_get?, hmi] at hri
  rw [runBatch_get?, hmj] at hrj
  simp only [Option.map_some', Option.some.injEq] at hri hrj
  rw [← hri, ← hrj]
  rw [download_path t mi dir (start + 1 + i) (isNone_false_of_isSome hmedi)]
  rw [download_path t mj dir (start + 1 + j) (isNone_false_of_isSome hmedj)]
  intro hcon
  have hpaths := Option.some.inj hcon
  unfold pathJoin at hpaths
  have hnames := List.cons.inj (List.append_cancel_left hpaths)
  exact absurd (fileNameFor_index_inj hnames.2) (by omega)

/-- Witness for C10: a concrete two-item batch in which both items
even share the same suggested base name, yet ranks 0021 and 0022 keep
the paths apart. -/
theorem C10_distinct_paths_witness :
    (download_media_message (okTransport 4) (namedDocMsg 1 ("a.bin".data) none)
      ("dl".data) 21).path ≠
    (download_media_message (okTransport 4) (namedDocMsg 2 ("a.bin".data) none)
      ("dl".data) 22).path := by
  apply C10_distinct_paths (okTransport 4)
    [namedDocMsg 1 ("a.bin".data) none, namedDocMsg 2 ("a.bin".data) none]
    ("dl".data) 20 0 1 (namedDocMsg 1 ("a.bin".data) none) (namedDocMsg 2 ("a.bin".data) none)
    _ _ (by decide) rfl rfl rfl rfl rfl rfl

/- ------------------------------------------------------------------
   Claim C4: failure isolation.
   ------------------------------------------------------------------ -/

/-- A task whose download call succeeds records a Succeeded outcome
and no diagnostic. -/
theorem download_ok (t : Transport) (m : Message) (dir : Str) (idx n : Nat)
    (hm : m.media.isNone = false)
    (h : t m (pathJoin dir (fileNameFor m idx)) = Except.ok n) :
    download_media_message t m dir idx =
      { madeDir := true, path := some (pathJoin dir (fileNameFor m idx)),
        status := Status.Succeeded n, diagnostic := none } := by
  simp [download_media_message, hm, h]

/-- A task whose download call raises a transport error records a
Failed outcome and the diagnostic naming the failing message. -/
theorem download_error (t : Transport) (m : Message) (dir : Str) (idx : Nat) (e : Str)
    (hm : m.media.isNone = false)
    (h : t m (pathJoin dir (fileNameFor m idx)) = Except.error e) :
    download_media_message t m dir idx =
      { madeDir := true, path := some (pathJoin dir (fileNameFor m idx)),
        status := Status.Failed e, diagnostic := some (diagMsg m.id e) } := by
  simp [download_media_message, hm, h]

/-- A predicate holding at exactly one index of a list is counted
exactly once. -/
theorem countP_eq_one_of_unique {α : Type} (p : α → Bool) :
    ∀ (l : List α) (k : Nat) (a : α), l.get? k = some a → p a = true →
      (∀ j b, j ≠ k → l.get? j = some b → p b = false) →
      l.countP p = 1 := by
  intro l
  induction l with
  | nil => intro k a hk; cases hk
  | cons x xs ih =>
    intro k a hk hp hothers
    cases k with
    | zero =>
      have hax : a = x := by
        simp only [List.get?_cons_zero, Option.some.injEq] at hk
        exact hk.symm
      subst hax
      have hzero : xs.countP p = 0 := by
        rw [List.countP_eq_zero]
        intro b hb
        obtain ⟨n, hn⟩ := List.mem_iff_get?.mp hb
        have := hothers (n + 1) b (by omega) (by simpa using hn)
        simp [this]
      rw [List.countP_cons, hzero, hp]
      simp
    | succ k =>
      have hx : p x = false := hothers 0 x (by omega) rfl
      have hk' : xs.get? k = some a := by simpa using hk
      have hoth' : ∀ j b, j ≠ k → xs.get? j = some b → p b = false := by
        intro j b hj hg
        exact hothers (j + 1) b (by omega) (by simpa using hg)
      rw [List.countP_cons, ih k a hk' hp hoth', hx]
      simp

/-- Claim C4: in a batch in which exactly one item's transfer raises a
transport error, that failure does not abort or cancel any sibling:
every other item still records a Succeeded outcome, the failing item
records exactly one Failed outcome together with the immediate
diagnostic naming the failing message, and the run after a completed
batch exits with code 0 whatever the outcomes were. -/
theorem C4_failure_isolation (t : Transport) (msgs : List Message) (dir : Str)
    (start k : Nat) (mfail : Message) (e : Str)
    (hmedia : ∀ m ∈ msgs, m.media.isSome = true)
    (hmk : msgs.get? k = some mfail)
    (hfail : t mfail (pathJoin dir (fileNameFor mfail (start + 1 + k))) = Except.error e)
    (hok : ∀ j mj, j ≠ k → msgs.get? j = some mj →
      ∃ n, t mj (pathJoin dir (fileNameFor mj (start + 1 + j))) = Except.ok n) :
    (runBatch t msgs dir start).get? k =
      some { madeDir := true,
             path := some (pathJoin dir (fileNameFor mfail (start + 1 + k))),
             status := Status.Failed e,
             diagnostic := some (diagMsg mfail.id e) } ∧
    (∀ j rj, j ≠ k → (runBatch t msgs dir start).get? j = some rj →
      ∃ n, rj.status = Status.Succeeded n) ∧
    failedCount (runBatch t msgs dir start) = 1 ∧
    succeededCount (runBatch t msgs dir start) = msgs.length - 1 ∧
    (∀ env args hist, env.api_id ≠ 0 → env.api_hash ≠ [] →
      env.startResult = Except.ok () → env.entityResult = Except.ok () →
      env.historyResult = Except.ok hist → 0 ≤ args.concurrency →
      (mainModel env args).exitCode = 0) := by
  have hmfailmem : mfail ∈ msgs := List.get?_mem hmk
  have hmfailnone : mfail.media.isNone = false :=
    isNone_false_of_isSome (hmedia mfail hmfailmem)
  have hatk : (runBatch t msgs dir start).get? k =
      some { madeDir := true,
             path := some (pathJoin dir (fileNameFor mfail (start + 1 + k))),
             status := Status.Failed e,
             diagnostic := some (diagMsg mfail.id e) } := by
    rw [runBatch_get?, hmk, Option.map_some',
      download_error t mfail dir (start + 1 + k) e hmfailnone hfail]
  have hatother : ∀ j rj, j ≠ k → (runBatch t msgs dir start).get? j = some rj →
      ∃ n, rj.status = Status.Succeeded n := by
    intro j rj hj hg
    rw [runBatch_get?] at hg
    cases hmj : msgs.get? j with
    | none => rw [hmj] at hg; cases hg
    | some mj =>
      rw [hmj, Option.map_some'] at hg
      obtain ⟨n, hn⟩ := hok j mj hj hmj
      have hmjnone : mj.media.isNone = false :=
        isNone_false_of_isSome (hmedia mj (List.get?_mem hmj))
      rw [download_ok t mj dir (start + 1 + j) n hmjnone hn] at hg
      exact ⟨n, by rw [← Option.some.inj hg]⟩
  have hfailed : failedCount (runBatch t msgs dir start) = 1 := by
    apply countP_eq_one_of_unique _ (runBatch t msgs dir start) k
      { madeDir := true,
        path := some (pathJoin dir (fileNameFor mfail (start + 1 + k))),
        status := Status.Failed e,
        diagnostic := some (diagMsg mfail.id e) } hatk rfl
    intro j b hj hg
    obtain ⟨n, hn⟩ := hatother j b hj hg
    simp [hn]
  refine ⟨hatk, hatother, hfailed, ?_, ?_⟩
  · have hsum := succeeded_add_failed (runBatch t msgs dir start)
    rw [runBatch_length] at hsum
    have hklen : k < msgs.length := by
      have := List.get?_eq_some.mp hmk
      exact this.1
    omega
  · intro env args hist hh2 hid hhash hstart hentity hconc
    have hsem : semaphoreInit args.concurrency = Except.ok args.concurrency.toNat := by
      unfold semaphoreInit
      rw [if_neg (by omega)]
    unfold mainModel
    rw [if_neg (by push_neg; exact ⟨hh2, hid⟩), hhash, hstart, hentity, hsem]
    cases hfe : (List.filter (fun m => m.media.isSome) hist).isEmpty <;>
      cases hwe : (applyWindow (List.filter (fun m => m.media.isSome) hist)
        args.skip args.limit).isEmpty <;>
      simp [hfe, hwe]

/-- Witness for C4: two documents, the transport failing exactly on
the second; the report counts one failure and one success. -/
theorem C4_failure_isolation_witness :
    failedCount (runBatch failSecondTransport
      [namedDocMsg 1 ("a.bin".data) none, namedDocMsg 2 ("b.bin".data) none]
      ("dl".data) 0) = 1 ∧
    succeededCount (runBatch failSecondTransport
      [namedDocMsg 1 ("a.bin".data) none, namedDocMsg 2 ("b.bin".data) none]
      ("dl".data) 0) = 1 ∧
    (mainModel envThreeMedia argsDefault).exitCode = 0 := by
  have hok : ∀ j mj, j ≠ 1 →
      ([namedDocMsg 1 ("a.bin".data) none, namedDocMsg 2 ("b.bin".data) none] :
        List Message).get? j = some mj →
      ∃ n, failSecondTransport mj
        (pathJoin ("dl".data) (fileNameFor mj (0 + 1 + j))) = Except.ok n := by
    intro j mj hj hg
    cases j with
    | zero =>
      have hmj : namedDocMsg 1 ("a.bin".data) none = mj := Option.some.inj hg
      subst hmj
      exact ⟨5, rfl⟩
    | succ j =>
      cases j with
      | zero => exact absurd rfl hj
      | succ j => cases hg
  have h := C4_failure_isolation failSecondTransport
    [namedDocMsg 1 ("a.bin".data) none, namedDocMsg 2 ("b.bin".data) none]
    ("dl".data) 0 1 (namedDocMsg 2 ("b.bin".data) none) ("boom".data)
    (by decide) rfl rfl hok
  refine ⟨h.2.2.1, by have hs := h.2.2.2.1; simpa using hs, ?_⟩
  exact h.2.2.2.2 envThreeMedia argsDefault
    [namedDocMsg 1 ("a".data) (some 100), photoMsg 2 [some 10, some 30, none], bareDocMsg 3]
    (by decide) (by decide) rfl rfl rfl (by decide)

/- ------------------------------------------------------------------
   Claim C5: process exit codes.
   ------------------------------------------------------------------ -/

/-- The run on the full success path: every precondition holds, the
filtered history and the window are non-empty, concurrency is
non-negative, and the result is exit 0, the gathered batch and the
pre-flight size sum over exactly the windowed sub-sequence. -/
theorem mainModel_batch (env : Env) (args : Args) (hist : List Message)
    (hid : env.api_id ≠ 0) (hhash : env.api_hash ≠ [])
    (hstart : env.startResult = Except.ok ())
    (hentity : env.entityResult = Except.ok ())
    (hhist : env.historyResult = Except.ok hist)
    (hmsgs : (hist.filter (fun m => m.media.isSome)).isEmpty = false)
    (hwin : (applyWindow (hist.filter (fun m => m.media.isSome))
      args.skip args.limit).isEmpty = false)
    (hconc : 0 ≤ args.concurrency) :
    mainModel env args =
      { exitCode := 0,
        outcomes := runBatch env.transport
          (applyWindow (hist.filter (fun m => m.media.isSome)) args.skip args.limit)
          ("downloads_".data ++ args.id) args.skip,
        totalBytes := some (((applyWindow (hist.filter (fun m => m.media.isSome))
          args.skip args.limit).map get_media_size).sum) } := by
  have hsem : semaphoreInit args.concurrency = Except.ok args.concurrency.toNat := by
    unfold semaphoreInit
    rw [if_neg (by omega)]
  unfold mainModel
  rw [if_neg (by push_neg; exact ⟨hid, hhash⟩), hstart, hentity, hhist]
  simp only [hmsgs, hwin, hsem, Bool.false_eq_true, if_false]

/-- Claim C5, amended: the process exits 1 exactly on the placeholder
credential presence check (api_id 0 or empty api_hash); connect
failure, an unresolvable identifier and a fetch failure each print a
diagnostic and exit 0, and a run whose preconditions hold exits 0
whatever the per-item outcomes (and whatever path it then takes, for
any non-negative concurrency). -/
theorem C5_exit_codes (env : Env) (args : Args) :
    ((env.api_id = 0 ∨ env.api_hash = []) → (mainModel env args).exitCode = 1) ∧
    ((∃ e, env.startResult = Except.error e) → env.api_id ≠ 0 → env.api_hash ≠ [] →
      (mainModel env args).exitCode = 0) ∧
    ((∃ e, env.entityResult = Except.error e) → env.api_id ≠ 0 → env.api_hash ≠ [] →
      env.startResult = Except.ok () → (mainModel env args).exitCode = 0) ∧
    ((∃ e, env.historyResult = Except.error e) → env.api_id ≠ 0 → env.api_hash ≠ [] →
      env.startResult = Except.ok () → env.entityResult = Except.ok () →
      (mainModel env args).exitCode = 0) ∧
    (∀ hist, env.historyResult = Except.ok hist → env.api_id ≠ 0 → env.api_hash ≠ [] →
      env.startResult = Except.ok () → env.entityResult = Except.ok () →
      0 ≤ args.concurrency → (mainModel env args).exitCode = 0) := by
  refine ⟨?_, ?_, ?_, ?_, ?_⟩
  · intro h
    unfold mainModel
    rw [if_pos h]
  · intro ⟨e, he⟩ hid hhash
    unfold mainModel
    rw [if_neg (by push_neg; exact ⟨hid, hhash⟩), he]
  · intro ⟨e, he⟩ hid hhash hstart
    unfold mainModel
    rw [if_neg (by push_neg; exact ⟨hid, hhash⟩), hstart, he]
  · intro ⟨e, he⟩ hid hhash hstart hentity
    unfold mainModel
    rw [if_neg (by push_neg; exact ⟨hid, hhash⟩), hstart, hentity, he]
  · intro hist hh hid hhash hstart hentity hconc
    have hsem : semaphoreInit args.concurrency = Except.ok args.concurrency.toNat := by
      unfold semaphoreInit
      rw [if_neg (by omega)]
    unfold mainModel
    rw [if_neg (by push_neg; exact ⟨hid, hhash⟩), hstart, hentity, hh, hsem]
    cases hfe : (List.filter (fun m => m.media.isSome) hist).isEmpty <;>
      cases hwe : (applyWindow (List.filter (fun m => m.media.isSome) hist)
        args.skip args.limit).isEmpty <;>
      simp [hfe, hwe]

/-- Counterexample to claim C5 as stated: with valid-looking
credentials and a working connection, the entity resolver fails
(unresolvable identifier), yet the run exits with code 0 (lines
146-155 of the source print a diagnostic and return normally), while
the claim demands a non-zero exit code. -/
theorem C5_counterexample :
    envBadEntity.entityResult = Except.error ("not found".data) ∧
    ¬ (mainModel envBadEntity argsDefault).exitCode ≠ 0 := by
  exact ⟨rfl, fun h => h rfl⟩

/-- Witness for C5: the amended statement applied to the concrete
unresolvable-identifier environment (exit 0) and to the unset
placeholder credentials (exit 1). -/
theorem C5_exit_codes_witness :
    (mainModel envBadEntity argsDefault).exitCode = 0 ∧
    (mainModel { envBadEntity with api_id := 0 } argsDefault).exitCode = 1 := by
  refine ⟨?_, ?_⟩
  · exact (C5_exit_codes envBadEntity argsDefault).2.2.1
      ⟨("not found".data), rfl⟩ (by decide) (by decide) rfl
  · exact (C5_exit_codes { envBadEntity with api_id := 0 } argsDefault).1 (Or.inl rfl)

/- ------------------------------------------------------------------
   Claim C8: pre-flight total estimate.
   ------------------------------------------------------------------ -/

/-- The code size accessor agrees pointwise with the sizeHint of the
spec: a document contributes its size (0 when absent), a photo the
maximum of its per-resolution sizes, anything else 0. -/
theorem get_media_size_eq_sizeHintSpec (m : Message) :
    get_media_size m = sizeHintSpec m := by
  unfold get_media_size sizeHintSpec
  cases hm : m.media with
  | none => rfl
  | some med =>
    cases med with
    | document d => cases hd : d.size <;> simp [hd]
    | photo p => cases hp : p.sizes <;> simp [hp]
    | other => rfl

/-- Claim C8: the pre-flight total printed before any transfer equals
the sum of the per-item size hints over exactly the windowed
sub-sequence (not the full unwindowed one); an item without size
information contributes 0 and a photo contributes the maximum of its
per-resolution sizes. -/
theorem C8_total_estimate (env : Env) (args : Args) (hist : List Message)
    (hid : env.api_id ≠ 0) (hhash : env.api_hash ≠ [])
    (hstart : env.startResult = Except.ok ())
    (hentity : env.entityResult = Except.ok ())
    (hhist : env.historyResult = Except.ok hist)
    (hmsgs : (hist.filter (fun m => m.media.isSome)).isEmpty = false)
    (hwin : (applyWindow (hist.filter (fun m => m.media.isSome))
      args.skip args.limit).isEmpty = false)
    (hconc : 0 ≤ args.concurrency) :
    (mainModel env args).totalBytes =
      some (((applyWindow (hist.filter (fun m => m.media.isSome)) args.skip
        args.limit).map sizeHintSpec).sum) := by
  rw [mainModel_batch env args hist hid hhash hstart hentity hhist hmsgs hwin hconc]
  have hfun : get_media_size = sizeHintSpec := funext get_media_size_eq_sizeHintSpec
  rw [hfun]

/-- Witness for C8: history of three media messages with skip 1; the
estimate covers only the two windowed items — the photo contributes
its largest resolution (30) and the sizeless document 0 — and not the
skipped document of size 100. -/
theorem C8_total_estimate_witness :
    (mainModel envThreeMedia argsSkip1).totalBytes = some 30 := by
  have h := C8_total_estimate envThreeMedia argsSkip1
    [namedDocMsg 1 ("a".data) (some 100), photoMsg 2 [some 10, some 30, none], bareDocMsg 3]
    (by decide) (by decide) rfl rfl rfl (by decide) (by decide) (by decide)
  rw [h]
  decide

/- ------------------------------------------------------------------
   Claim C7: concurrency below 1.
   ------------------------------------------------------------------ -/

/-- With a zero-capacity gate no task can ever acquire a slot: in
every reachable state every launched task is still waiting and the
batch has not returned. -/
theorem sched_zero_capacity (len : Nat) (hlen : 0 < len) :
    ∀ s : GState, SchedReachable 0 len s →
      s.sem = 0 ∧ s.phases = List.replicate len TaskPhase.waiting ∧ s.returned = false := by
  intro s h
  induction h with
  | refl => exact ⟨rfl, rfl, rfl⟩
  | tail _ hstep ih =>
    obtain ⟨h1, h2, h3⟩ := ih
    cases hstep with
    | acquire i hp hs => exact absurd hs (by simp [h1])
    | release i hp =>
      rw [h2] at hp
      have hmem := List.get?_mem hp
      exact absurd (List.eq_of_mem_replicate hmem) (by decide)
    | join hall hr =>
      rw [h2] at hall
      have hmem : TaskPhase.waiting ∈ List.replicate len TaskPhase.waiting :=
        List.mem_replicate.mpr ⟨by omega, rfl⟩
      exact absurd (hall TaskPhase.waiting hmem) (by decide)

/-- Counterexample to claim C7 as stated: concurrency 0 is below 1 yet
is not rejected — the semaphore constructor accepts it — and the run
is not aborted before any task is launched: with one launched task the
batch simply never returns (no reachable scheduler state is marked
returned; the task waits forever at the gate). -/
theorem C7_counterexample :
    semaphoreInit 0 = Except.ok 0 ∧
    (∀ s : GState, SchedReachable 0 1 s → s.returned = false) := by
  refine ⟨rfl, ?_⟩
  intro s h
  exact (sched_zero_capacity 1 (by omega) s h).2.2

/-- Claim C7, amended: the configured concurrency is not validated. A
negative value makes the semaphore constructor of line 212 raise, so
the run stops as an uncaught error (exit code 1) after fetching but
before any task is launched and with no per-task outcome; zero is
accepted, the gate has no free slot, the launched tasks all block
forever at admission and the batch never returns. -/
theorem C7_concurrency_unvalidated (v : Int) (len : Nat) (hneg : v < 0) (hlen : 0 < len) :
    semaphoreInit v = Except.error ("Semaphore initial value must be >= 0".data) ∧
    semaphoreInit 0 = Except.ok 0 ∧
    (∀ s : GState, SchedReachable 0 len s → s.returned = false) ∧
    (∀ env args hist, env.api_id ≠ 0 → env.api_hash ≠ [] →
      env.startResult = Except.ok () → env.entityResult = Except.ok () →
      env.historyResult = Except.ok hist →
      (hist.filter (fun m => m.media.isSome)).isEmpty = false →
      (applyWindow (hist.filter (fun m => m.media.isSome))
        args.skip args.limit).isEmpty = false →
      args.concurrency = v →
      (mainModel env args).exitCode = 1 ∧ (mainModel env args).outcomes = []) := by
  refine ⟨?_, rfl, ?_, ?_⟩
  · unfold semaphoreInit
    rw [if_pos hneg]
  · intro s h
    exact (sched_zero_capacity len hlen s h).2.2
  · intro env args hist hid hhash hstart hentity hhist hmsgs hwin hconc
    have hsem : semaphoreInit args.concurrency =
        Except.error ("Semaphore initial value must be >= 0".data) := by
      unfold semaphoreInit
      rw [if_pos (by omega)]
    unfold mainModel
    rw [if_neg (by push_neg; exact ⟨hid, hhash⟩), hstart, hentity, hhist, hsem]
    simp [hmsgs, hwin]

/-- Witness for C7: concurrency -3 makes the semaphore constructor
raise; capacity 0 is accepted and the one-task batch has not returned
in its initial state; the concrete three-message run with concurrency
-3 exits 1 with no outcomes. -/
theorem C7_concurrency_unvalidated_witness :
    semaphoreInit (-3) = Except.error ("Semaphore initial value must be >= 0".data) ∧
    semaphoreInit 0 = Except.ok 0 ∧
    (initState 0 1).returned = false ∧
    (mainModel envThreeMedia argsNegConc).exitCode = 1 ∧
    (mainModel envThreeMedia argsNegConc).outcomes = [] := by
  have h := C7_concurrency_unvalidated (-3) 1 (by decide) (by decide)
  have hmain := h.2.2.2 envThreeMedia argsNegConc
    [namedDocMsg 1 ("a".data) (some 100), photoMsg 2 [some 10, some 30, none], bareDocMsg 3]
    (by decide) (by decide) rfl rfl rfl (by decide) (by decide) rfl
  exact ⟨h.1, h.2.1, h.2.2.1 (initState 0 1) Relation.ReflTransGen.refl, hmain.1, hmain.2⟩
